import Mathlib

/-!
Verification of the fashion-search orchestration and ranking pipeline.

The definitions below are a shallow embedding of
`app/services/search_service.py` (class `SearchService`): the multi-factor
ranker `_rank_items`, the recommendation helper
`_generate_llm_recommendation`, and the orchestrator `search`.  External
collaborators (the OpenAI client, the embedding service and the database
query service) are modelled as injected functions returning `Except`,
mirroring Python calls that can raise.  Machine floats are modelled as real
numbers; `np.log1p x` is `Real.log (1 + x)`; Python integers are `Nat`
where the source guarantees non-negativity (rating counts).
-/

namespace SearchService

/-- One retrieved product row, as consumed by `_rank_items`:
`cosine_distance` (lower is better), `average_rating` (0-5 scale) and
`rating_number` (a non-negative count), plus identifying fields. -/
structure Item where
  id : Nat
  title : String
  cosine_distance : ℝ
  average_rating : ℝ
  rating_number : Nat

/-- An item together with the `score` field the ranker attaches to a copy
of the item (`item_with_score = item.copy(); item_with_score[score] = s`).
The `item` component holds every original field, unmodified. -/
structure ScoredItem where
  item : Item
  score : ℝ

/-- `np.log1p`, on the reals. -/
noncomputable def log1p (x : ℝ) : ℝ := Real.log (1 + x)

/-- `max_ratings = max(item[rating_number] for item in items) if items else 1`:
the plain maximum of the rating counts for a non-empty list, and 1 for the
empty list.  (For natural numbers, folding `Nat.max` over the list with
initial value 0 computes the maximum of a non-empty list.) -/
def max_ratings (items : List Item) : Nat :=
  match items with
  | [] => 1
  | _ :: _ => (items.map Item.rating_number).foldr Nat.max 0

/-- `popularity_score = np.log1p(item[rating_number]) / np.log1p(max_ratings)`. -/
noncomputable def popularity_score (rating_number : Nat) (max_ratings : Nat) : ℝ :=
  log1p (rating_number : ℝ) / log1p (max_ratings : ℝ)

/-- The per-item `final_score` computed in the body of the ranking loop:
`similarity = 1 - cosine_distance`, `average_rating_normalized = average_rating / 5.0`,
`confidence = min(rating_number / min_ratings, 1)`,
`rating_score = average_rating_normalized * confidence`, and the weighted sum. -/
noncomputable def score_item (similarity_weight rating_weight popularity_weight : ℝ)
    (min_ratings : Nat) (max_r : Nat) (item : Item) : ℝ :=
  let similarity := 1 - item.cosine_distance
  let average_rating_normalized := item.average_rating / 5.0
  let confidence := min ((item.rating_number : ℝ) / (min_ratings : ℝ)) 1
  let rating_score := average_rating_normalized * confidence
  let pop := popularity_score item.rating_number max_r
  similarity_weight * similarity + rating_weight * rating_score + popularity_weight * pop

/-- The `ranked_items` list built by the loop in `_rank_items`, before
sorting: each item is copied and given its `score`. -/
noncomputable def scored_items (items : List Item)
    (similarity_weight rating_weight popularity_weight : ℝ) (min_ratings : Nat) :
    List ScoredItem :=
  items.map fun item =>
    { item := item
      score := score_item similarity_weight rating_weight popularity_weight
        min_ratings (max_ratings items) item }

/-- `SearchService._rank_items`: score every item, then
`sorted(ranked_items, key=lambda x: x[score], reverse=True)` — a stable
sort, descending by score.  Python defaults: weights 0.7 / 0.2 / 0.1 and
`min_ratings = 1`; callers relying on the defaults use
`rank_items_default`. -/
noncomputable def _rank_items (items : List Item)
    (similarity_weight rating_weight popularity_weight : ℝ) (min_ratings : Nat) :
    List ScoredItem :=
  (scored_items items similarity_weight rating_weight popularity_weight
    min_ratings).mergeSort fun a b => decide (b.score ≤ a.score)

/-- `_rank_items` at its Python default arguments. -/
noncomputable def rank_items_default (items : List Item) : List ScoredItem :=
  _rank_items items 0.7 0.2 0.1 1

/-- The extracted filter expression: a structured mapping of facet names to
constraints, opaque to the ranker and passed through to the response. -/
abbrev FilterExpression := List (String × String)

/-- The value returned by `query_service.query_postgres`, a record whose
`response` field holds the unranked items. -/
structure QueryResult where
  response : List Item

/-- The injected external collaborators of `SearchService`: the LLM-backed
filter extraction (returning the filter expression and the
`is_related_to_fashion` flag), the embedding service, the database query
service and the LLM recommendation call.  Each is a Python call that can
raise; failure is modelled as `Except.error` carrying the message. -/
structure SearchDeps where
  extract_filter : String → Except String (FilterExpression × Bool)
  generate_prompt_embedding : String → Except String (List ℝ)
  query_postgres : List ℝ → FilterExpression → Except String QueryResult
  llm_recommend : String → List String → Except String String

/-- `SearchService._generate_llm_recommendation`: collect the titles of the
ranked items and hand them, with the original prompt, to the LLM call. -/
def _generate_llm_recommendation (deps : SearchDeps) (prompt : String)
    (item_results : List ScoredItem) : Except String String :=
  let item_titles := item_results.map fun item => item.item.title
  deps.llm_recommend prompt item_titles

/-- The warning returned for queries that are not fashion-related. -/
def out_of_domain_warning : String :=
  "Looks like you\x27re searching for something outside of fashion! Try asking about clothing, accessories, or fashion items instead."

/-- The warning appended when fewer than 5 ranked items were found. -/
def broaden_warning : String :=
  "Not many items were found. Try broadening your search!"

/-- The response envelope assembled by `SearchService.search`. -/
structure SearchEnvelope where
  response : Option (List ScoredItem)
  recommendation : Option String
  warnings : List String
  filters : FilterExpression

/-- `SearchService.search`: extract filters and the fashion flag; if the
query is not fashion-related, return the short-circuit envelope at once;
otherwise embed the prompt, query the database, rank, call the LLM for a
recommendation (unguarded — its failure propagates), compute the
sparse-result warning, and assemble the envelope. -/
noncomputable def search (deps : SearchDeps) (prompt : String) :
    Except String SearchEnvelope :=
  match deps.extract_filter prompt with
  | Except.error e => Except.error e
  | Except.ok (filter_expression, is_fashion_related) =>
    if !is_fashion_related then
      Except.ok { recommendation := none
                  warnings := [out_of_domain_warning]
                  response := none
                  filters := filter_expression }
    else
      match deps.generate_prompt_embedding prompt with
      | Except.error e => Except.error e
      | Except.ok query_embedding =>
        match deps.query_postgres query_embedding filter_expression with
        | Except.error e => Except.error e
        | Except.ok unranked_results =>
          let ranked_response := rank_items_default unranked_results.response
          match _generate_llm_recommendation deps prompt ranked_response with
          | Except.error e => Except.error e
          | Except.ok llm_recommendation =>
            Except.ok { response := some ranked_response
                        recommendation := some llm_recommendation
                        warnings :=
                          if ranked_response.length < 5 then [broaden_warning] else []
                        filters := filter_expression }

/-! ### Helper lemmas about `max_ratings` and `log1p` -/

theorem le_foldr_max {l : List Nat} {x : Nat} (hx : x ∈ l) :
    x ≤ l.foldr Nat.max 0 := by
  induction l with
  | nil => cases hx
  | cons a t ih =>
    rcases List.mem_cons.mp hx with h | h
    · subst h; exact Nat.le_max_left _ _
    · exact le_trans (ih h) (Nat.le_max_right _ _)

theorem foldr_max_mem : ∀ {l : List Nat}, l ≠ [] → l.foldr Nat.max 0 ∈ l
  | [a], _ => by simp
  | a :: b :: t, _ => by
    have ih := foldr_max_mem (l := b :: t) (by simp)
    show Nat.max a ((b :: t).foldr Nat.max 0) ∈ a :: b :: t
    rcases Nat.le_total a ((b :: t).foldr Nat.max 0) with h | h
    · have heq : Nat.max a ((b :: t).foldr Nat.max 0)
          = (b :: t).foldr Nat.max 0 := by
        rw [Nat.max_eq_max]; exact Nat.max_eq_right h
      rw [heq]
      exact List.mem_cons_of_mem _ ih
    · have heq : Nat.max a ((b :: t).foldr Nat.max 0) = a := by
        rw [Nat.max_eq_max]; exact Nat.max_eq_left h
      rw [heq]
      exact List.mem_cons_self _ _

theorem rating_number_le_max_ratings {items : List Item} {i : Item}
    (hi : i ∈ items) : i.rating_number ≤ max_ratings items := by
  cases items with
  | nil => cases hi
  | cons a t => exact le_foldr_max (List.mem_map_of_mem Item.rating_number hi)

theorem max_ratings_attained {items : List Item} (h : items ≠ []) :
    ∃ i ∈ items, i.rating_number = max_ratings items := by
  cases items with
  | nil => exact absurd rfl h
  | cons a t =>
    have hmem : max_ratings (a :: t) ∈ (a :: t).map Item.rating_number :=
      foldr_max_mem (by simp)
    obtain ⟨i, hi, hv⟩ := List.mem_map.mp hmem
    exact ⟨i, hi, hv⟩

theorem log1p_nat_nonneg (n : Nat) : 0 ≤ log1p (n : ℝ) :=
  Real.log_nonneg (le_add_of_nonneg_right (Nat.cast_nonneg n))

theorem log1p_nat_pos {n : Nat} (h : 1 ≤ n) : 0 < log1p (n : ℝ) := by
  refine Real.log_pos ?_
  have : (1 : ℝ) ≤ (n : ℝ) := by exact_mod_cast h
  linarith

theorem log1p_nat_le {a b : Nat} (h : a ≤ b) : log1p (a : ℝ) ≤ log1p (b : ℝ) := by
  unfold log1p
  rw [Real.log_le_log_iff (by positivity) (by positivity)]
  have : (a : ℝ) ≤ (b : ℝ) := by exact_mod_cast h
  linarith

theorem log1p_nat_eq_zero {n : Nat} : log1p (n : ℝ) = 0 ↔ n = 0 := by
  unfold log1p
  rw [Real.log_eq_zero]
  constructor
  · rintro (h | h | h)
    · exfalso
      have : (0 : ℝ) ≤ (n : ℝ) := Nat.cast_nonneg n
      linarith
    · have : (n : ℝ) = 0 := by linarith
      exact_mod_cast this
    · exfalso
      have : (0 : ℝ) ≤ (n : ℝ) := Nat.cast_nonneg n
      linarith
  · rintro rfl
    simp

theorem log1p_nat_inj {a b : Nat} : log1p (a : ℝ) = log1p (b : ℝ) ↔ a = b := by
  constructor
  · intro h
    unfold log1p at h
    have h2 : (1 : ℝ) + (a : ℝ) = 1 + (b : ℝ) :=
      Real.log_injOn_pos (Set.mem_Ioi.mpr (by positivity))
        (Set.mem_Ioi.mpr (by positivity)) h
    have : (a : ℝ) = (b : ℝ) := by linarith
    exact_mod_cast this
  · rintro rfl
    rfl

/-! ### Helper lemmas about the descending-score comparison -/

theorem score_desc_trans : ∀ a b c : ScoredItem,
    (fun a b : ScoredItem => decide (b.score ≤ a.score)) a b = true →
    (fun a b : ScoredItem => decide (b.score ≤ a.score)) b c = true →
    (fun a b : ScoredItem => decide (b.score ≤ a.score)) a c = true := by
  intro a b c hab hbc
  simp only [decide_eq_true_eq] at hab hbc ⊢
  exact le_trans hbc hab

theorem score_desc_total : ∀ a b : ScoredItem,
    ((fun a b : ScoredItem => decide (b.score ≤ a.score)) a b
      || (fun a b : ScoredItem => decide (b.score ≤ a.score)) b a) = true := by
  intro a b
  simp only [Bool.or_eq_true, decide_eq_true_eq]
  exact le_total _ _

/-! ### Concrete test items used by witnesses and counterexamples -/

/-- A candidate whose distance exceeds 1, so its similarity term is negative. -/
noncomputable def far_item : Item :=
  { id := 1, title := "far", cosine_distance := 2, average_rating := 4, rating_number := 3 }

/-- A candidate with zero ratings. -/
noncomputable def zero_ratings_item : Item :=
  { id := 3, title := "unrated", cosine_distance := 0.4, average_rating := 0,
    rating_number := 0 }

/-- A well-reviewed candidate. -/
noncomputable def rated_item : Item :=
  { id := 4, title := "rated", cosine_distance := 0.1, average_rating := 4,
    rating_number := 50 }

/-! ### Claim theorems -/

/-- C8: the ranker never fails on well-typed input; in particular it maps the
empty candidate list to the empty list (for any weight configuration and
confidence threshold), the normalization maximum for the empty list is 1,
and the popularity divisor `log1p(max_ratings)` is positive there, so no
division by zero occurs. -/
theorem rank_items_empty_total :
    (∀ (w₁ w₂ w₃ : ℝ) (m : Nat), _rank_items [] w₁ w₂ w₃ m = [])
    ∧ max_ratings [] = 1
    ∧ 0 < log1p ((max_ratings [] : ℝ)) := by
  refine ⟨?_, rfl, ?_⟩
  · intro w₁ w₂ w₃ m
    simp [_rank_items, scored_items]
  · exact log1p_nat_pos (le_refl 1)

/-- C10: for every candidate list and weight configuration, the ranker's
output has the same length as its input, and stripping the attached scores
yields a permutation of the input candidates — no candidate is dropped,
duplicated or invented. -/
theorem rank_items_permutes (items : List Item) (w₁ w₂ w₃ : ℝ) (m : Nat) :
    ((_rank_items items w₁ w₂ w₃ m).map ScoredItem.item).Perm items
    ∧ (_rank_items items w₁ w₂ w₃ m).length = items.length := by
  constructor
  · have hperm : (_rank_items items w₁ w₂ w₃ m).Perm (scored_items items w₁ w₂ w₃ m) :=
      List.mergeSort_perm _ _
    have hmap := hperm.map ScoredItem.item
    refine hmap.trans ?_
    have : (scored_items items w₁ w₂ w₃ m).map ScoredItem.item = items := by
      simp only [scored_items, List.map_map]
      exact List.map_id items
    rw [this]
  · simp [_rank_items, scored_items]

/-- C9: ranking attaches the score to a copy and leaves every source
candidate unmodified: every element of the output is exactly some input
candidate, with all of its original fields unchanged, extended with the
computed score. -/
theorem rank_items_copies (items : List Item) (w₁ w₂ w₃ : ℝ) (m : Nat) :
    ∀ s ∈ _rank_items items w₁ w₂ w₃ m,
      ∃ i ∈ items,
        s = { item := i, score := score_item w₁ w₂ w₃ m (max_ratings items) i } := by
  intro s hs
  simp only [_rank_items, List.mem_mergeSort, scored_items, List.mem_map] at hs
  obtain ⟨i, hi, rfl⟩ := hs
  exact ⟨i, hi, rfl⟩

/-- C9 witness: on a concrete one-element list, the single output element is
the input item with its score attached. -/
theorem rank_items_copies_witness :
    ∃ i ∈ [rated_item],
      ({ item := rated_item,
         score := score_item 0.7 0.2 0.1 1 (max_ratings [rated_item]) rated_item } : ScoredItem)
        = { item := i, score := score_item 0.7 0.2 0.1 1 (max_ratings [rated_item]) i } :=
  rank_items_copies [rated_item] 0.7 0.2 0.1 1 _ (by simp [_rank_items, scored_items])

/-- C1: under the default configuration (weights 0.7 / 0.2 / 0.1,
`min_ratings = 1`), every candidate of a non-empty list is assigned the score
`0.7 * (1 - distance) + 0.2 * ((rating / 5) * min(count / 1, 1))
+ 0.1 * (log1p(count) / log1p(max_ratings))`, with the similarity term
unclamped (it is negative whenever `distance > 1`). -/
theorem rank_items_default_score_formula (items : List Item) (_h : items ≠ []) :
    ∀ s ∈ rank_items_default items,
      s.score = 0.7 * (1 - s.item.cosine_distance)
        + 0.2 * ((s.item.average_rating / 5) * min ((s.item.rating_number : ℝ) / 1) 1)
        + 0.1 * (Real.log (1 + (s.item.rating_number : ℝ))
            / Real.log (1 + (max_ratings items : ℝ))) := by
  intro s hs
  simp only [rank_items_default, _rank_items, List.mem_mergeSort, scored_items,
    List.mem_map] at hs
  obtain ⟨i, hi, rfl⟩ := hs
  simp only [score_item, popularity_score, log1p]
  norm_num

/-- C1 witness: the formula evaluated on a concrete candidate with
`distance = 2 > 1`. -/
theorem rank_items_default_score_formula_witness :
    ({ item := far_item,
       score := score_item 0.7 0.2 0.1 1 (max_ratings [far_item]) far_item } : ScoredItem).score
      = 0.7 * (1 - far_item.cosine_distance)
        + 0.2 * ((far_item.average_rating / 5) * min ((far_item.rating_number : ℝ) / 1) 1)
        + 0.1 * (Real.log (1 + (far_item.rating_number : ℝ))
            / Real.log (1 + (max_ratings [far_item] : ℝ))) :=
  rank_items_default_score_formula [far_item] (List.cons_ne_nil _ _) _
    (by simp [rank_items_default, _rank_items, scored_items])

/-- C7: for every candidate list, the ranker's output is sorted by score in
descending order, and the sort is stable: any run of candidates with
pairwise-equal scores that appears (in retrieval order) in the scored input
still appears, in the same order, in the output. -/
theorem rank_items_sorted_and_stable (items : List Item) (w₁ w₂ w₃ : ℝ) (m : Nat) :
    (_rank_items items w₁ w₂ w₃ m).Sorted (fun a b : ScoredItem => b.score ≤ a.score)
    ∧ ∀ l : List ScoredItem,
        l.Sublist (scored_items items w₁ w₂ w₃ m) →
        l.Pairwise (fun a b : ScoredItem => a.score = b.score) →
        l.Sublist (_rank_items items w₁ w₂ w₃ m) := by
  constructor
  · have hs := List.sorted_mergeSort score_desc_trans score_desc_total
      (scored_items items w₁ w₂ w₃ m)
    exact hs.imp (fun hab => by simpa using hab)
  · intro l hsub hpair
    exact List.sublist_mergeSort score_desc_trans score_desc_total
      (hpair.imp (fun hab => by simp [hab])) hsub

/-- C7 witness: a duplicated candidate yields two equal-score entries, and
the full scored list (a tie run) survives as a sublist of the sorted
output. -/
theorem rank_items_sorted_and_stable_witness :
    (scored_items [rated_item, rated_item] 0.7 0.2 0.1 1).Sublist
      (_rank_items [rated_item, rated_item] 0.7 0.2 0.1 1) :=
  (rank_items_sorted_and_stable [rated_item, rated_item] 0.7 0.2 0.1 1).2
    (scored_items [rated_item, rated_item] 0.7 0.2 0.1 1)
    (List.Sublist.refl _)
    (by simp [scored_items])

/-- C2 counterexample: on a non-empty list whose only candidate has zero
ratings, the code computes `max_ratings = 0`, not the claimed
`max(ratingCount, 1) = 1`, and the popularity divisor `log1p(max_ratings)`
is exactly zero. -/
theorem max_ratings_no_floor_counterexample :
    max_ratings [zero_ratings_item] = 0
    ∧ max_ratings [zero_ratings_item] ≠ Nat.max 0 1
    ∧ log1p ((max_ratings [zero_ratings_item] : ℝ)) = 0 := by
  refine ⟨rfl, by decide, ?_⟩
  have h0 : max_ratings [zero_ratings_item] = 0 := rfl
  rw [h0]
  exact log1p_nat_eq_zero.mpr rfl

/-- C2 amended: the floor of 1 applies only to the empty candidate list.
For a non-empty list, `max_ratings` is the plain maximum of the rating
counts (an attained upper bound), and the popularity divisor
`log1p(max_ratings)` is zero exactly when every candidate has zero
ratings. -/
theorem max_ratings_floor_only_when_empty :
    max_ratings [] = 1
    ∧ ∀ items : List Item, items ≠ [] →
        (∀ i ∈ items, i.rating_number ≤ max_ratings items)
        ∧ (∃ i ∈ items, i.rating_number = max_ratings items)
        ∧ (log1p ((max_ratings items : ℝ)) = 0 ↔ ∀ i ∈ items, i.rating_number = 0) := by
  refine ⟨rfl, ?_⟩
  intro items hne
  refine ⟨fun i hi => rating_number_le_max_ratings hi, max_ratings_attained hne, ?_⟩
  rw [log1p_nat_eq_zero]
  constructor
  · intro h0 i hi
    have := rating_number_le_max_ratings hi
    omega
  · intro hall
    obtain ⟨i, hi, hv⟩ := max_ratings_attained hne
    rw [← hv]
    exact hall i hi

/-- C2 amended, witness at a concrete one-element list with zero ratings. -/
theorem max_ratings_floor_only_when_empty_witness :
    (∀ i ∈ [zero_ratings_item], i.rating_number ≤ max_ratings [zero_ratings_item])
    ∧ (∃ i ∈ [zero_ratings_item], i.rating_number = max_ratings [zero_ratings_item])
    ∧ (log1p ((max_ratings [zero_ratings_item] : ℝ)) = 0
        ↔ ∀ i ∈ [zero_ratings_item], i.rating_number = 0) :=
  max_ratings_floor_only_when_empty.2 [zero_ratings_item] (List.cons_ne_nil _ _)

/-- C6 counterexample: on a list whose only candidate has zero ratings, that
candidate achieves `max_ratings`, yet its popularity score is
`log1p(0) / log1p(0)`, which is not 1 (the divisor is zero), refuting
"popularityScore = 1 exactly for the candidate(s) achieving
maxRatingCount". -/
theorem popularity_score_not_one_at_max :
    zero_ratings_item.rating_number = max_ratings [zero_ratings_item]
    ∧ popularity_score zero_ratings_item.rating_number (max_ratings [zero_ratings_item]) ≠ 1 := by
  constructor
  · rfl
  · have h0 : max_ratings [zero_ratings_item] = 0 := rfl
    have hr : zero_ratings_item.rating_number = 0 := rfl
    rw [h0, hr]
    have hz : log1p ((0 : Nat) : ℝ) = 0 := log1p_nat_eq_zero.mpr rfl
    simp only [popularity_score, hz, div_zero]
    norm_num

/-- C6 amended: provided at least one candidate has a positive rating count
(so `max_ratings ≥ 1` and the divisor is positive), every candidate's
popularity score lies in `[0, 1]`, and it equals 1 exactly for the
candidate(s) whose rating count achieves `max_ratings`. -/
theorem popularity_score_bounds (items : List Item)
    (h : ∃ j ∈ items, 1 ≤ j.rating_number) :
    ∀ i ∈ items,
      0 ≤ popularity_score i.rating_number (max_ratings items)
      ∧ popularity_score i.rating_number (max_ratings items) ≤ 1
      ∧ (popularity_score i.rating_number (max_ratings items) = 1
          ↔ i.rating_number = max_ratings items) := by
  obtain ⟨j, hj, hj1⟩ := h
  have hmax1 : 1 ≤ max_ratings items := le_trans hj1 (rating_number_le_max_ratings hj)
  have hpos : 0 < log1p ((max_ratings items : ℝ)) := log1p_nat_pos hmax1
  intro i hi
  have hle : i.rating_number ≤ max_ratings items := rating_number_le_max_ratings hi
  refine ⟨div_nonneg (log1p_nat_nonneg _) (le_of_lt hpos), ?_, ?_⟩
  · exact div_le_one_of_le₀ (log1p_nat_le hle) (le_of_lt hpos)
  · unfold popularity_score
    rw [div_eq_one_iff_eq (ne_of_gt hpos)]
    exact log1p_nat_inj

/-- C6 amended, witness: the single candidate of a concrete list with 50
ratings achieves the maximum, and its popularity score is in `[0, 1]` and
equal to 1. -/
theorem popularity_score_bounds_witness :
    0 ≤ popularity_score rated_item.rating_number (max_ratings [rated_item])
    ∧ popularity_score rated_item.rating_number (max_ratings [rated_item]) ≤ 1
    ∧ (popularity_score rated_item.rating_number (max_ratings [rated_item]) = 1
        ↔ rated_item.rating_number = max_ratings [rated_item]) :=
  popularity_score_bounds [rated_item] ⟨rated_item, by simp, by decide⟩
    rated_item (by simp)

/-! ### Orchestrator claims -/

/-- C4: when the extracted flag says the query is not fashion-related,
`search` returns the short-circuit envelope (`response = none`,
`recommendation = none`, warnings = the out-of-domain warning, filters =
the extracted filter expression), and its result does not depend on the
embedder, the store or the recommender: any other dependency bundle with
the same filter extraction yields the identical result, so those
collaborators are never invoked. -/
theorem search_out_of_domain (deps deps₂ : SearchDeps) (prompt : String)
    (f : FilterExpression)
    (h : deps.extract_filter prompt = Except.ok (f, false))
    (h₂ : deps₂.extract_filter prompt = deps.extract_filter prompt) :
    search deps prompt = Except.ok
      { response := none
        recommendation := none
        warnings := [out_of_domain_warning]
        filters := f }
    ∧ search deps₂ prompt = search deps prompt := by
  constructor
  · simp [search, h]
  · rw [h] at h₂
    simp [search, h, h₂]

/-- A dependency bundle whose non-extraction collaborators all fail, used to
witness that the short-circuit never reaches them. -/
def ood_deps : SearchDeps :=
  { extract_filter := fun _ => Except.ok ([("is_fashion", "false")], false)
    generate_prompt_embedding := fun _ => Except.error "embedder called"
    query_postgres := fun _ _ => Except.error "store called"
    llm_recommend := fun _ _ => Except.error "llm called" }

/-- A bundle with the same extraction as `ood_deps` but succeeding
collaborators. -/
def ood_deps₂ : SearchDeps :=
  { extract_filter := fun _ => Except.ok ([("is_fashion", "false")], false)
    generate_prompt_embedding := fun _ => Except.ok []
    query_postgres := fun _ _ => Except.ok { response := [] }
    llm_recommend := fun _ _ => Except.ok "rec" }

/-- C4 witness: a concrete out-of-domain query short-circuits identically
under failing and succeeding collaborators. -/
theorem search_out_of_domain_witness :
    search ood_deps "weather today" = Except.ok
      { response := none
        recommendation := none
        warnings := [out_of_domain_warning]
        filters := [("is_fashion", "false")] }
    ∧ search ood_deps₂ "weather today" = search ood_deps "weather today" :=
  search_out_of_domain ood_deps ood_deps₂ "weather today"
    [("is_fashion", "false")] rfl rfl

/-- C5: for every successful in-domain search, the returned warnings list
contains the advise-to-broaden warning exactly when the ranked sequence has
fewer than 5 entries. -/
theorem search_sparse_warning_iff (deps : SearchDeps) (prompt : String)
    (f : FilterExpression) (emb : List ℝ) (qres : QueryResult) (rec_text : String)
    (h₁ : deps.extract_filter prompt = Except.ok (f, true))
    (h₂ : deps.generate_prompt_embedding prompt = Except.ok emb)
    (h₃ : deps.query_postgres emb f = Except.ok qres)
    (h₄ : _generate_llm_recommendation deps prompt (rank_items_default qres.response)
      = Except.ok rec_text) :
    ∃ env : SearchEnvelope, search deps prompt = Except.ok env
      ∧ (broaden_warning ∈ env.warnings ↔ (rank_items_default qres.response).length < 5) := by
  refine ⟨{ response := some (rank_items_default qres.response)
            recommendation := some rec_text
            warnings :=
              if (rank_items_default qres.response).length < 5 then [broaden_warning] else []
            filters := f }, ?_, ?_⟩
  · simp [search, h₁, h₂, h₃, h₄]
  · by_cases hlen : (rank_items_default qres.response).length < 5 <;> simp [hlen]

/-- A dependency bundle for a successful in-domain search returning no
candidates. -/
def sparse_deps : SearchDeps :=
  { extract_filter := fun _ => Except.ok ([], true)
    generate_prompt_embedding := fun _ => Except.ok []
    query_postgres := fun _ _ => Except.ok { response := [] }
    llm_recommend := fun _ _ => Except.ok "rec" }

/-- C5 witness: a concrete successful search with an empty candidate list
(0 < 5 ranked entries) carries the broaden warning. -/
theorem search_sparse_warning_iff_witness :
    ∃ env : SearchEnvelope, search sparse_deps "red dress" = Except.ok env
      ∧ (broaden_warning ∈ env.warnings
          ↔ (rank_items_default ({ response := [] } : QueryResult).response).length < 5) :=
  search_sparse_warning_iff sparse_deps "red dress" [] [] { response := [] } "rec"
    rfl rfl rfl rfl

/-- A dependency bundle whose recommendation call fails while everything
before it succeeds. -/
def rec_fail_deps : SearchDeps :=
  { extract_filter := fun _ => Except.ok ([], true)
    generate_prompt_embedding := fun _ => Except.ok []
    query_postgres := fun _ _ => Except.ok { response := [] }
    llm_recommend := fun _ _ => Except.error "llm down" }

/-- C3 counterexample: with extraction, embedding, retrieval and ranking all
succeeding but the recommendation call failing, `search` fails with that
error instead of returning the ranked results with a warning — the
recommendation call is not guarded. -/
theorem search_rec_failure_fails :
    search rec_fail_deps "red dress" = Except.error "llm down" := by
  simp [search, rec_fail_deps, _generate_llm_recommendation]

/-- C3 amended: when the Recommendation Generator call fails after a
successful embed / retrieve / rank, `search` propagates the failure and the
ranked candidates are discarded; no degraded SearchResult is produced. -/
theorem search_rec_failure_propagates (deps : SearchDeps) (prompt : String)
    (f : FilterExpression) (emb : List ℝ) (qres : QueryResult) (e : String)
    (h₁ : deps.extract_filter prompt = Except.ok (f, true))
    (h₂ : deps.generate_prompt_embedding prompt = Except.ok emb)
    (h₃ : deps.query_postgres emb f = Except.ok qres)
    (h₄ : _generate_llm_recommendation deps prompt (rank_items_default qres.response)
      = Except.error e) :
    search deps prompt = Except.error e := by
  simp [search, h₁, h₂, h₃, h₄]

/-- C3 amended, witness: the concrete failing-recommender bundle makes the
whole search fail with the recommender's error. -/
theorem search_rec_failure_propagates_witness :
    search rec_fail_deps "blue jeans" = Except.error "llm down" :=
  search_rec_failure_propagates rec_fail_deps "blue jeans" [] []
    { response := [] } "llm down" rfl rfl rfl rfl

end SearchService
